import Mathlib

/-!
OTA_Secure_ESP8266: configuration header and update pipeline

Shallow embedding of `config.example.h` (the preprocessor constants, the
string-literal concatenation of `MANIFEST_URL`, and the three `#if ... #error`
compile-time checks), followed by a model of the update pipeline whose
tunables those constants are.
-/

namespace OTAConfig

/-! ## Constants of `config.example.h` -/

/-- Header: `#define WIFI_SSID "YOUR_WIFI_SSID"` -/
def WIFI_SSID : String := "YOUR_WIFI_SSID"

/-- Header: `#define WIFI_PASSWORD "YOUR_WIFI_PASSWORD"` -/
def WIFI_PASSWORD : String := "YOUR_WIFI_PASSWORD"

/-- Header: `#define GITHUB_USER "khaoullaaa"` -/
def GITHUB_USER : String := "khaoullaaa"

/-- Header: `#define GITHUB_REPO "ESP8266_OTA"` -/
def GITHUB_REPO : String := "ESP8266_OTA"

/-- Header: `#define GITHUB_BRANCH "main"` -/
def GITHUB_BRANCH : String := "main"

/-- Header: `#define GITHUB_FINGERPRINT "C6 06 ... 5F"` -/
def GITHUB_FINGERPRINT : String :=
  "C6 06 5C F7 89 3B 4F D9 5A 81 33 2F F9 6F 76 35 BD 6F B6 5F"

/-- Header: `#define ENABLE_SSL_VALIDATION true` -/
def ENABLE_SSL_VALIDATION : Bool := true

/-- Header: `#define ENABLE_SHA256_VERIFICATION true` -/
def ENABLE_SHA256_VERIFICATION : Bool := true

/-- Header: `#define FIRMWARE_VERSION "1.0.0"` -/
def FIRMWARE_VERSION : String := "1.0.0"

/-- Header: `#define UPDATE_CHECK_INTERVAL 3600000` (milliseconds) -/
def UPDATE_CHECK_INTERVAL : Nat := 3600000

/-- Header: `#define MAX_FIRMWARE_SIZE 1048576` (bytes) -/
def MAX_FIRMWARE_SIZE : Nat := 1048576

/-- Header: `#define WATCHDOG_TIMEOUT 8000` (milliseconds) -/
def WATCHDOG_TIMEOUT : Nat := 8000

/-- Header: `#define HTTP_TIMEOUT 15000` (milliseconds) -/
def HTTP_TIMEOUT : Nat := 15000

/-- Header: `#define MAX_RETRY_ATTEMPTS 3` -/
def MAX_RETRY_ATTEMPTS : Nat := 3

/-- Header: `#define RETRY_DELAY 2000` (milliseconds) -/
def RETRY_DELAY : Nat := 2000

/-! ## `MANIFEST_URL`

The macro body is a sequence of adjacent string literals and macro names; after
expansion the compiler concatenates them left to right. The three macros it
names are the parameters of the embedding. -/

/-- Header line 53: `#define MANIFEST_URL "https://raw.githubusercontent.com/"
GITHUB_USER "/" GITHUB_REPO "/" GITHUB_BRANCH "/ESP8266_Firmware/manifest.json"` -/
def MANIFEST_URL (user repo branch : String) : String :=
  "https://raw.githubusercontent.com/" ++ user ++ "/" ++ repo ++ "/" ++ branch
    ++ "/ESP8266_Firmware/manifest.json"

/-! ## Compile-time checks

A preprocessor environment records, for each macro the checks look at, whether
it is defined (`some` its replacement text) or not (`none`), and the truth value
to which `ENABLE_SSL_VALIDATION` evaluates inside `#if`. -/

/-- The macros read by the `COMPILE-TIME CHECKS` block. -/
structure MacroEnv where
  WIFI_SSID : Option String
  WIFI_PASSWORD : Option String
  GITHUB_USER : Option String
  GITHUB_REPO : Option String
  GITHUB_FINGERPRINT : Option String
  ENABLE_SSL_VALIDATION : Bool
  deriving DecidableEq, Repr

/-- The preprocessor operator `defined(X)`. -/
def defined (m : Option String) : Bool := m.isSome

/-- First check: `#if !defined(WIFI_SSID) || !defined(WIFI_PASSWORD)`. -/
def checkWifi (e : MacroEnv) : List String :=
  if !defined e.WIFI_SSID || !defined e.WIFI_PASSWORD then
    ["WiFi credentials must be defined!"]
  else []

/-- Second check: `#if !defined(GITHUB_USER) || !defined(GITHUB_REPO)`. -/
def checkGithub (e : MacroEnv) : List String :=
  if !defined e.GITHUB_USER || !defined e.GITHUB_REPO then
    ["GitHub repository information must be defined!"]
  else []

/-- Third check: `#if ENABLE_SSL_VALIDATION && !defined(GITHUB_FINGERPRINT)`. -/
def checkFingerprint (e : MacroEnv) : List String :=
  if e.ENABLE_SSL_VALIDATION && !defined e.GITHUB_FINGERPRINT then
    ["GitHub fingerprint must be defined when SSL validation is enabled!"]
  else []

/-- The `#error` diagnostics the three checks emit, in source order. -/
def compileTimeChecks (e : MacroEnv) : List String :=
  checkWifi e ++ checkGithub e ++ checkFingerprint e

/-- The build fails when at least one `#error` is emitted. -/
def buildFails (e : MacroEnv) : Bool := !(compileTimeChecks e).isEmpty

/-- The environment the header itself sets up before the checks. -/
def shippedEnv : MacroEnv where
  WIFI_SSID := some WIFI_SSID
  WIFI_PASSWORD := some WIFI_PASSWORD
  GITHUB_USER := some GITHUB_USER
  GITHUB_REPO := some GITHUB_REPO
  GITHUB_FINGERPRINT := some GITHUB_FINGERPRINT
  ENABLE_SSL_VALIDATION := ENABLE_SSL_VALIDATION

/-! ## Fingerprint format -/

/-- Split a character sequence at every occurrence of `sep`; `n` separators
always give `n + 1` tokens, so a leading, trailing or doubled separator shows up
as an empty token. -/
def splitOnChar (sep : Char) : List Char → List (List Char)
  | [] => [[]]
  | c :: cs =>
    if c = sep then [] :: splitOnChar sep cs
    else
      match splitOnChar sep cs with
      | [] => [[c]]
      | t :: ts => (c :: t) :: ts

/-- The tokens of a string split on single spaces. -/
def splitOnSpace (cs : List Char) : List (List Char) := splitOnChar ' ' cs

/-- Position of a character among the sixteen hexadecimal digits, upper or lower
case. -/
def hexDigit (c : Char) : Option Nat :=
  "0123456789ABCDEF".data.indexOf? c.toUpper

/-- A token of exactly two hexadecimal digits decodes to one byte. -/
def decodeByte : List Char → Option Nat
  | [hi, lo] =>
    match hexDigit hi, hexDigit lo with
    | some h, some l => some (16 * h + l)
    | _, _ => none
  | _ => none

/-- Decode a space-separated hex string; fails on any malformed token. -/
def decodeFingerprint (s : String) : Option (List Nat) :=
  (splitOnSpace s.data).mapM decodeByte

/-! ## Watchdog -/

/-- Modelled from the spec: `WatchdogGuard` (section 4.7), which has no source
in the repository. `armed` holds the timeout given to `arm`, `sinceHeartbeat`
the milliseconds since the last liveness signal, `expired` whether the hardware
reset has fired. -/
structure WatchdogGuard where
  armed : Option Nat
  sinceHeartbeat : Nat
  expired : Bool
  deriving DecidableEq, Repr

namespace WatchdogGuard

/-- Modelled from the spec: `arm(timeout)` starts a fresh window. -/
def arm (timeout : Nat) : WatchdogGuard :=
  { armed := some timeout, sinceHeartbeat := 0, expired := false }

/-- Modelled from the spec: `heartbeat()` restarts the window. -/
def heartbeat (w : WatchdogGuard) : WatchdogGuard :=
  { w with sinceHeartbeat := 0 }

/-- Modelled from the spec: `disarm()` stops the watchdog. -/
def disarm (w : WatchdogGuard) : WatchdogGuard :=
  { w with armed := none, sinceHeartbeat := 0 }

/-- Modelled from the spec: `dt` milliseconds pass with no heartbeat; the reset
fires once no heartbeat has arrived within the armed timeout. -/
def advance (w : WatchdogGuard) (dt : Nat) : WatchdogGuard :=
  let t := w.sinceHeartbeat + dt
  { w with
    sinceHeartbeat := t
    expired := w.expired ||
      (match w.armed with
       | some timeout => decide (timeout < t)
       | none => false) }

end WatchdogGuard

/-! ## Update pipeline -/

/-- Error taxonomy (section 7), with `DownloadFailedError` of section 4.4. -/
inductive ErrorKind
  | NetworkError
  | TlsValidationError
  | ManifestParseError
  | VersionParseError
  | SizeExceededError
  | TruncatedDownloadError
  | HashMismatchError
  | FlashWriteError
  | DownloadFailedError
  | WatchdogTimeoutError
  deriving DecidableEq, Repr

/-- One dot-separated component: a non-empty run of decimal digits. -/
def parseComponent (cs : List Char) : Option Nat :=
  if !cs.isEmpty && cs.all Char.isDigit then
    some (cs.foldl (fun n c => 10 * n + (c.toNat - '0'.toNat)) 0)
  else none

/-- All components of a version, or `none` when one of them is malformed. -/
def parseComponents : List (List Char) → Option (List Nat)
  | [] => some []
  | t :: ts =>
    match parseComponent t, parseComponents ts with
    | some n, some ns => some (n :: ns)
    | _, _ => none

/-- A version string is well formed when every dot-separated component is a
non-empty run of decimal digits. -/
def wellFormedVersion (v : String) : Bool :=
  (splitOnChar '.' v.data).all (fun t => !t.isEmpty && t.all Char.isDigit)

/-- Modelled from the spec: version parsing of `VersionComparator` (section
4.3), which has no source in the repository: dot-separated non-negative integer
components, malformed strings fail closed with `VersionParseError`. -/
def parseVersion (v : String) : Except ErrorKind (List Nat) :=
  match parseComponents (splitOnChar '.' v.data) with
  | some cs => .ok cs
  | none => .error .VersionParseError

/-- Modelled from the spec: the component-wise comparison of section 4.3, left
to right; a candidate with more components than the running version and equal
to it in the shared prefix is newer; equal versions are not newer. -/
def newerComponents : List Nat → List Nat → Bool
  | [], _ => false
  | _ :: _, [] => true
  | c :: cs, r :: rs =>
    if r < c then true
    else if c < r then false
    else newerComponents cs rs

/-- Modelled from the spec: `VersionComparator.is_newer(candidate, running)`
(section 4.3), which has no source in the repository. -/
def is_newer (candidate running : String) : Except ErrorKind Bool :=
  match parseVersion candidate, parseVersion running with
  | .ok c, .ok r => .ok (newerComponents c r)
  | _, _ => .error .VersionParseError

/-- The failures of `ManifestClient.fetch` (section 4.1). -/
inductive FetchError
  | NetworkError
  | TlsValidationError
  | ManifestParseError
  deriving DecidableEq, Repr

/-- The error kind recorded in the session for a failed manifest fetch. -/
def FetchError.toErrorKind : FetchError → ErrorKind
  | .NetworkError => .NetworkError
  | .TlsValidationError => .TlsValidationError
  | .ManifestParseError => .ManifestParseError

/-- Manifest of section 3; the digest is a byte sequence. -/
structure Manifest where
  version : String
  firmware_url : String
  digest : List Nat
  size : Nat
  deriving DecidableEq, Repr

/-- States of `UpdateSession` (section 3). -/
inductive State
  | Idle
  | Checking
  | Downloading
  | Verifying
  | Flashing
  | Rebooting
  | Failed
  deriving DecidableEq, Repr

/-- The tunables of the header that the pipeline reads. -/
structure Config where
  ENABLE_SHA256_VERIFICATION : Bool
  MAX_FIRMWARE_SIZE : Nat
  MAX_RETRY_ATTEMPTS : Nat
  RETRY_DELAY : Nat
  FIRMWARE_VERSION : String
  deriving DecidableEq, Repr

/-- The configuration with the values the header defines. -/
def shippedConfig : Config where
  ENABLE_SHA256_VERIFICATION := ENABLE_SHA256_VERIFICATION
  MAX_FIRMWARE_SIZE := MAX_FIRMWARE_SIZE
  MAX_RETRY_ATTEMPTS := MAX_RETRY_ATTEMPTS
  RETRY_DELAY := RETRY_DELAY
  FIRMWARE_VERSION := FIRMWARE_VERSION

/-- Modelled from the spec: `UpdateSession` (section 3), which has no source in
the repository. Besides the fields the spec lists, the session keeps the
manifest it works on, the elapsed time at which its download began, the bytes
streamed in the current attempt, and the payload handed to
`UpdateApplier.apply` (if it was called). -/
structure UpdateSession where
  state : State
  attempt_count : Nat
  bytes_received : Nat
  last_error : Option ErrorKind
  elapsed : Nat
  download_started : Nat
  manifest : Option Manifest
  downloaded : List Nat
  applied : Option (List Nat)
  deriving DecidableEq, Repr

/-- What the external collaborators deliver to the orchestrator; `dt` is the
time in milliseconds the operation took. -/
inductive Event
  | trigger
  | manifest (r : Except FetchError Manifest) (dt : Nat)
  | chunk (bytes : List Nat) (dt : Nat)
  | streamEnd (dt : Nat)
  | networkFailure (dt : Nat)
  | tlsFailure (dt : Nat)
  | verify
  | flash (ok : Bool) (dt : Nat)
  | cooldown

/-- The session before any trigger. -/
def UpdateSession.idle : UpdateSession where
  state := .Idle
  attempt_count := 0
  bytes_received := 0
  last_error := none
  elapsed := 0
  download_started := 0
  manifest := none
  downloaded := []
  applied := none

/-- Any component failure moves the session to `Failed` and records the error. -/
def UpdateSession.fail (s : UpdateSession) (e : ErrorKind) : UpdateSession :=
  { s with state := .Failed, last_error := some e }

/-- Time taken by an operation is added to the session's elapsed time. -/
def UpdateSession.tick (s : UpdateSession) (dt : Nat) : UpdateSession :=
  { s with elapsed := s.elapsed + dt }

/-- Modelled from the spec: the outcome of `ManifestClient.fetch` followed by
the version decision (sections 4.1, 4.3, 4.8, and the oversize scenario of
section 8). -/
def onManifest (cfg : Config) (s : UpdateSession) :
    Except FetchError Manifest → UpdateSession
  | .error e => s.fail e.toErrorKind
  | .ok m =>
    if cfg.MAX_FIRMWARE_SIZE < m.size then s.fail .SizeExceededError
    else
      match is_newer m.version cfg.FIRMWARE_VERSION with
      | .error e => s.fail e
      | .ok false => { s with state := .Idle }
      | .ok true =>
        { s with
          state := .Downloading
          manifest := some m
          download_started := s.elapsed
          attempt_count := 1
          bytes_received := 0
          downloaded := [] }

/-- Modelled from the spec: one streamed chunk in `FirmwareDownloader`
(section 4.4 (a)): the size check comes before the count is updated. -/
def onChunk (cfg : Config) (s : UpdateSession) (m : Manifest) (bytes : List Nat) :
    UpdateSession :=
  if m.size < s.bytes_received + bytes.length ∨
      cfg.MAX_FIRMWARE_SIZE < s.bytes_received + bytes.length then
    s.fail .SizeExceededError
  else
    { s with
      bytes_received := s.bytes_received + bytes.length
      downloaded := s.downloaded ++ bytes }

/-- Modelled from the spec: end of stream in `FirmwareDownloader` (section 4.4
(b)): the byte count must equal the declared size exactly. -/
def onStreamEnd (s : UpdateSession) (m : Manifest) : UpdateSession :=
  if s.bytes_received = m.size then { s with state := .Verifying }
  else s.fail .TruncatedDownloadError

/-- Modelled from the spec: a transient network failure (section 4.4): the
whole download restarts from the beginning after a fixed delay, up to the
configured number of attempts. -/
def onNetworkFailure (cfg : Config) (s : UpdateSession) : UpdateSession :=
  if s.attempt_count < cfg.MAX_RETRY_ATTEMPTS then
    { s with
      attempt_count := s.attempt_count + 1
      bytes_received := 0
      downloaded := []
      elapsed := s.elapsed + cfg.RETRY_DELAY }
  else s.fail .DownloadFailedError

/-- Modelled from the spec: `IntegrityVerifier` (section 4.5) followed by the
hand-over to `UpdateApplier.apply`; `ENABLE_SHA256_VERIFICATION` switches the
digest comparison on, as its comment in the header says. -/
def onVerify (cfg : Config) (sha256 : List Nat → List Nat) (s : UpdateSession)
    (m : Manifest) : UpdateSession :=
  if cfg.ENABLE_SHA256_VERIFICATION && decide (sha256 s.downloaded ≠ m.digest) then
    { s.fail .HashMismatchError with downloaded := [] }
  else
    { s with state := .Flashing, applied := some s.downloaded }

/-- Modelled from the spec: `UpdateOrchestrator` (section 4.8), which has no
source in the repository. An event that does not fit the current state leaves
the session unchanged; in particular a trigger outside `Idle` is rejected. -/
def step (cfg : Config) (sha256 : List Nat → List Nat) (s : UpdateSession) :
    Event → UpdateSession
  | .trigger =>
    match s.state with
    | .Idle => { UpdateSession.idle with state := .Checking }
    | _ => s
  | .manifest r dt =>
    match s.state with
    | .Checking => onManifest cfg (s.tick dt) r
    | _ => s
  | .chunk bytes dt =>
    match s.state, s.manifest with
    | .Downloading, some m => onChunk cfg (s.tick dt) m bytes
    | _, _ => s
  | .streamEnd dt =>
    match s.state, s.manifest with
    | .Downloading, some m => onStreamEnd (s.tick dt) m
    | _, _ => s
  | .networkFailure dt =>
    match s.state with
    | .Downloading => onNetworkFailure cfg (s.tick dt)
    | _ => s
  | .tlsFailure dt =>
    match s.state with
    | .Downloading => (s.tick dt).fail .TlsValidationError
    | _ => s
  | .verify =>
    match s.state, s.manifest with
    | .Verifying, some m => onVerify cfg sha256 s m
    | _, _ => s
  | .flash ok dt =>
    match s.state with
    | .Flashing =>
      if ok then { s.tick dt with state := .Rebooting }
      else (s.tick dt).fail .FlashWriteError
    | _ => s
  | .cooldown =>
    match s.state with
    | .Failed => { s with state := .Idle }
    | _ => s

/-- The session reached from the idle session by a sequence of events. -/
def run (cfg : Config) (sha256 : List Nat → List Nat) (evs : List Event) :
    UpdateSession :=
  evs.foldl (step cfg sha256) UpdateSession.idle

/-- A stand-in digest for concrete runs: the byte sum modulo 256. -/
def sumDigest (bytes : List Nat) : List Nat := [bytes.sum % 256]

/-- What holds of every session the orchestrator can reach. -/
structure Inv (cfg : Config) (sha256 : List Nat → List Nat) (s : UpdateSession) :
    Prop where
  active_no_error : s.state ≠ .Idle → s.state ≠ .Failed → s.last_error = none
  pre_apply :
    s.state = .Checking ∨ s.state = .Downloading ∨ s.state = .Verifying →
      s.applied = none
  post_apply : s.state = .Flashing ∨ s.state = .Rebooting → s.applied = some s.downloaded
  attempts_le : s.attempt_count ≤ cfg.MAX_RETRY_ATTEMPTS
  delay_le :
    s.download_started + (s.attempt_count - 1) * cfg.RETRY_DELAY ≤ s.elapsed
  exhausted :
    s.last_error = some .DownloadFailedError →
      s.attempt_count = cfg.MAX_RETRY_ATTEMPTS
  bytes_le_max : s.bytes_received ≤ cfg.MAX_FIRMWARE_SIZE
  bytes_le_size : ∀ m, s.manifest = some m → s.bytes_received ≤ m.size
  bytes_none : s.manifest = none → s.bytes_received = 0
  streamed :
    s.state = .Downloading ∨ s.state = .Verifying →
      s.downloaded.length = s.bytes_received
  complete :
    s.state = .Verifying → ∀ m, s.manifest = some m → s.bytes_received = m.size
  applied_size : ∀ p, s.applied = some p → ∃ m, s.manifest = some m ∧ p.length = m.size
  verified :
    cfg.ENABLE_SHA256_VERIFICATION = true →
      ∀ p, s.applied = some p → ∃ m, s.manifest = some m ∧ sha256 p = m.digest

/-! ## Lemmas -/

variable {cfg : Config} {sha256 : List Nat → List Nat} {s : UpdateSession}

theorem newerComponents_self (cs : List Nat) : newerComponents cs cs = false := by
  induction cs with
  | nil => rfl
  | cons c cs ih => simp [newerComponents, ih]

theorem parseComponents_of_all (ts : List (List Char))
    (h : ts.all (fun t => !t.isEmpty && t.all Char.isDigit) = true) :
    ∃ cs, parseComponents ts = some cs := by
  induction ts with
  | nil => exact ⟨[], rfl⟩
  | cons t ts ih =>
    rw [List.all_cons, Bool.and_eq_true] at h
    obtain ⟨cs, hcs⟩ := ih h.2
    exact ⟨t.foldl (fun n c => 10 * n + (c.toNat - '0'.toNat)) 0 :: cs,
      by simp only [parseComponents, parseComponent, h.1, if_true, hcs]⟩

theorem parseVersion_of_wellFormed (v : String) (h : wellFormedVersion v = true) :
    ∃ cs, parseVersion v = .ok cs := by
  obtain ⟨cs, hcs⟩ := parseComponents_of_all _ h
  exact ⟨cs, by simp only [parseVersion, hcs]⟩

theorem inv_idle (cfg : Config) (sha256 : List Nat → List Nat) :
    Inv cfg sha256 UpdateSession.idle := by
  constructor <;> simp [UpdateSession.idle]

theorem inv_tick (h : Inv cfg sha256 s) (dt : Nat) : Inv cfg sha256 (s.tick dt) := by
  obtain ⟨h1, h2, h3, h4, h5, h6, h7, h8, h9, h10, h11, h12, h13⟩ := h
  exact ⟨h1, h2, h3, h4, Nat.le_trans h5 (Nat.le_add_right _ _), h6, h7, h8, h9, h10, h11,
    h12, h13⟩

theorem inv_fail (h : Inv cfg sha256 s) (e : ErrorKind)
    (he : e = .DownloadFailedError → s.attempt_count = cfg.MAX_RETRY_ATTEMPTS) :
    Inv cfg sha256 (s.fail e) := by
  obtain ⟨h1, h2, h3, h4, h5, h6, h7, h8, h9, h10, h11, h12, h13⟩ := h
  constructor <;> simp_all [UpdateSession.fail]

theorem retry_delay_step (a d e t : Nat) (h : t + (a - 1) * d ≤ e) :
    t + (a + 1 - 1) * d ≤ e + d := by
  cases a with
  | zero =>
    simp only [Nat.zero_sub, Nat.zero_mul, Nat.add_zero, Nat.zero_add, Nat.sub_self] at h ⊢
    omega
  | succ k =>
    simp only [Nat.add_sub_cancel] at h ⊢
    rw [Nat.succ_mul]
    omega

theorem inv_onManifest (h1 : 1 ≤ cfg.MAX_RETRY_ATTEMPTS) (h : Inv cfg sha256 s)
    (hs : s.state = .Checking) (r : Except FetchError Manifest) :
    Inv cfg sha256 (onManifest cfg s r) := by
  cases r with
  | error e =>
    exact inv_fail h _ (fun he => by cases e <;> simp [FetchError.toErrorKind] at he)
  | ok m =>
    simp only [onManifest]
    split
    · exact inv_fail h _ (by simp)
    · split
      · next e he =>
        refine inv_fail h e (fun hd => ?_)
        subst hd
        simp only [is_newer] at he
        split at he <;> simp at he
      · obtain ⟨h1, h2, h3, h4, h5, h6, h7, h8, h9, h10, h11, h12, h13⟩ := h
        constructor <;> simp_all
      · obtain ⟨i1, i2, i3, i4, i5, i6, i7, i8, i9, i10, i11, i12, i13⟩ := h
        have ha : s.applied = none := i2 (Or.inl hs)
        have hl : s.last_error = none := i1 (by simp [hs]) (by simp [hs])
        constructor <;> simp_all

theorem inv_onChunk (h : Inv cfg sha256 s) (hs : s.state = .Downloading) (m : Manifest)
    (hm : s.manifest = some m) (bytes : List Nat) :
    Inv cfg sha256 (onChunk cfg s m bytes) := by
  simp only [onChunk]
  split
  · exact inv_fail h _ (by simp)
  · next hc =>
    obtain ⟨i1, i2, i3, i4, i5, i6, i7, i8, i9, i10, i11, i12, i13⟩ := h
    have hlen := i10 (Or.inl hs)
    constructor <;> simp_all

theorem inv_onStreamEnd (h : Inv cfg sha256 s) (hs : s.state = .Downloading)
    (m : Manifest) (hm : s.manifest = some m) :
    Inv cfg sha256 (onStreamEnd s m) := by
  simp only [onStreamEnd]
  split
  · obtain ⟨i1, i2, i3, i4, i5, i6, i7, i8, i9, i10, i11, i12, i13⟩ := h
    constructor <;> simp_all
  · exact inv_fail h _ (by simp)

theorem inv_onNetworkFailure (h : Inv cfg sha256 s) (hs : s.state = .Downloading) :
    Inv cfg sha256 (onNetworkFailure cfg s) := by
  simp only [onNetworkFailure]
  split
  · next hlt =>
    obtain ⟨i1, i2, i3, i4, i5, i6, i7, i8, i9, i10, i11, i12, i13⟩ := h
    have hd := retry_delay_step _ _ _ _ i5
    have hl : s.last_error = none := i1 (by simp [hs]) (by simp [hs])
    constructor <;> simp_all
    omega
  · next hge =>
    exact inv_fail h _ (fun _ => Nat.le_antisymm h.attempts_le (Nat.not_lt.mp hge))

theorem inv_onVerify (h : Inv cfg sha256 s) (hs : s.state = .Verifying) (m : Manifest)
    (hm : s.manifest = some m) :
    Inv cfg sha256 (onVerify cfg sha256 s m) := by
  simp only [onVerify]
  split
  · have := inv_fail h .HashMismatchError (by simp)
    obtain ⟨i1, i2, i3, i4, i5, i6, i7, i8, i9, i10, i11, i12, i13⟩ := this
    constructor <;> simp_all [UpdateSession.fail]
  · next hc =>
    obtain ⟨i1, i2, i3, i4, i5, i6, i7, i8, i9, i10, i11, i12, i13⟩ := h
    have hlen := i10 (Or.inr hs)
    have hsz := i11 hs m hm
    constructor <;> simp_all

theorem inv_step (h1 : 1 ≤ cfg.MAX_RETRY_ATTEMPTS) (h : Inv cfg sha256 s) (ev : Event) :
    Inv cfg sha256 (step cfg sha256 s ev) := by
  cases ev with
  | trigger =>
    simp only [step]
    split
    · constructor <;> simp [UpdateSession.idle]
    · exact h
  | manifest r dt =>
    simp only [step]
    split
    · next hs => exact inv_onManifest h1 (inv_tick h dt) hs r
    · exact h
  | chunk bytes dt =>
    simp only [step]
    split
    · next m hs hm => exact inv_onChunk (inv_tick h dt) hs m hm bytes
    · exact h
  | streamEnd dt =>
    simp only [step]
    split
    · next m hs hm => exact inv_onStreamEnd (inv_tick h dt) hs m hm
    · exact h
  | networkFailure dt =>
    simp only [step]
    split
    · next hs => exact inv_onNetworkFailure (inv_tick h dt) hs
    · exact h
  | tlsFailure dt =>
    simp only [step]
    split
    · exact inv_fail (inv_tick h dt) _ (by simp)
    · exact h
  | verify =>
    simp only [step]
    split
    · next m hs hm => exact inv_onVerify h hs m hm
    · exact h
  | flash ok dt =>
    simp only [step]
    split
    · next hs =>
      split
      · obtain ⟨i1, i2, i3, i4, i5, i6, i7, i8, i9, i10, i11, i12, i13⟩ := inv_tick h dt
        have ha := i3 (Or.inl hs)
        have hl : s.last_error = none := i1 (by simp [UpdateSession.tick, hs])
          (by simp [UpdateSession.tick, hs])
        constructor <;> simp_all [UpdateSession.tick]
      · exact inv_fail (inv_tick h dt) _ (by simp)
    · exact h
  | cooldown =>
    simp only [step]
    split
    · obtain ⟨i1, i2, i3, i4, i5, i6, i7, i8, i9, i10, i11, i12, i13⟩ := h
      constructor <;> simp_all
    · exact h

theorem inv_foldl (h1 : 1 ≤ cfg.MAX_RETRY_ATTEMPTS) (evs : List Event) :
    ∀ s, Inv cfg sha256 s → Inv cfg sha256 (evs.foldl (step cfg sha256) s) := by
  induction evs with
  | nil => intro s h; exact h
  | cons ev evs ih => intro s h; exact ih _ (inv_step h1 h ev)

theorem inv_run (cfg : Config) (sha256 : List Nat → List Nat)
    (h1 : 1 ≤ cfg.MAX_RETRY_ATTEMPTS) (evs : List Event) :
    Inv cfg sha256 (run cfg sha256 evs) :=
  inv_foldl h1 evs _ (inv_idle cfg sha256)

theorem shipped_attempts_pos : 1 ≤ shippedConfig.MAX_RETRY_ATTEMPTS := by decide

/-! ## Properties of the header and the pipeline -/

/-- C1: `MANIFEST_URL` is `https://<host>/<user>/<repo>/<branch>/<path>/manifest.json`
with host `raw.githubusercontent.com` and path `ESP8266_Firmware` for every
user, repository and branch; it starts with `https://`, ends with
`/manifest.json`, and with the values of the header it is the literal URL. -/
theorem manifest_url_shape :
    (∀ user repo branch : String,
      MANIFEST_URL user repo branch =
          "https://" ++ "raw.githubusercontent.com" ++ "/" ++ user ++ "/" ++ repo ++ "/"
            ++ branch ++ "/" ++ "ESP8266_Firmware" ++ "/manifest.json"
        ∧ "https://".data <+: (MANIFEST_URL user repo branch).data
        ∧ "/manifest.json".data <:+ (MANIFEST_URL user repo branch).data)
    ∧ MANIFEST_URL GITHUB_USER GITHUB_REPO GITHUB_BRANCH =
        "https://raw.githubusercontent.com/khaoullaaa/ESP8266_OTA/main/ESP8266_Firmware/manifest.json" := by
  refine ⟨fun user repo branch => ⟨?_, ?_, ?_⟩, by decide⟩
  · apply String.ext
    simp [MANIFEST_URL, String.data_append]
  · refine ⟨"raw.githubusercontent.com/".data ++ user.data ++ "/".data ++ repo.data
      ++ "/".data ++ branch.data ++ "/ESP8266_Firmware/manifest.json".data, ?_⟩
    simp [MANIFEST_URL, String.data_append]
  · refine ⟨"https://raw.githubusercontent.com/".data ++ user.data ++ "/".data ++ repo.data
      ++ "/".data ++ branch.data ++ "/ESP8266_Firmware".data, ?_⟩
    simp [MANIFEST_URL, String.data_append]

/-- C2: the build fails with an `#error` exactly when `WIFI_SSID` or
`WIFI_PASSWORD` is undefined, or `GITHUB_USER` or `GITHUB_REPO` is undefined, or
`ENABLE_SSL_VALIDATION` is true and `GITHUB_FINGERPRINT` is undefined; validation
without a fingerprint is always rejected, a missing fingerprint is accepted
when validation is off, and the header as shipped passes all three checks. -/
theorem compile_time_checks_iff :
    (∀ e : MacroEnv, buildFails e = true ↔
      ((e.WIFI_SSID = none ∨ e.WIFI_PASSWORD = none)
        ∨ (e.GITHUB_USER = none ∨ e.GITHUB_REPO = none)
        ∨ (e.ENABLE_SSL_VALIDATION = true ∧ e.GITHUB_FINGERPRINT = none)))
    ∧ (∀ ssid pw user repo : Option String,
        buildFails ⟨ssid, pw, user, repo, none, true⟩ = true)
    ∧ (∀ ssid pw user repo : String,
        buildFails ⟨some ssid, some pw, some user, some repo, none, false⟩ = false)
    ∧ buildFails shippedEnv = false
    ∧ checkWifi shippedEnv = [] ∧ checkGithub shippedEnv = []
    ∧ checkFingerprint shippedEnv = [] := by
  refine ⟨?_, ?_, ?_, by decide, by decide, by decide, by decide⟩
  · rintro ⟨ssid, pw, user, repo, fp, ssl⟩
    cases ssid <;> cases pw <;> cases user <;> cases repo <;> cases fp <;> cases ssl <;>
      simp [buildFails, compileTimeChecks, checkWifi, checkGithub, checkFingerprint, defined]
  · intro ssid pw user repo
    cases ssid <;> cases pw <;> cases user <;> cases repo <;>
      simp [buildFails, compileTimeChecks, checkWifi, checkGithub, checkFingerprint, defined]
  · intro ssid pw user repo
    simp [buildFails, compileTimeChecks, checkWifi, checkGithub, checkFingerprint, defined]

/-- C3: `GITHUB_FINGERPRINT` splits on single spaces into exactly 20 tokens, each
of exactly two hexadecimal digits; it decodes to the 20 bytes listed, and has
no leading, trailing or doubled space. -/
theorem fingerprint_well_formed :
    (splitOnSpace GITHUB_FINGERPRINT.data).length = 20
    ∧ (∀ t ∈ splitOnSpace GITHUB_FINGERPRINT.data,
        t.length = 2 ∧ ∀ c ∈ t, (hexDigit c).isSome = true)
    ∧ decodeFingerprint GITHUB_FINGERPRINT =
        some [0xC6, 0x06, 0x5C, 0xF7, 0x89, 0x3B, 0x4F, 0xD9, 0x5A, 0x81,
              0x33, 0x2F, 0xF9, 0x6F, 0x76, 0x35, 0xBD, 0x6F, 0xB6, 0x5F]
    ∧ (∀ bytes, decodeFingerprint GITHUB_FINGERPRINT = some bytes →
        bytes.length = 20 ∧ ∀ b ∈ bytes, b < 256)
    ∧ GITHUB_FINGERPRINT.data.head? ≠ some ' '
    ∧ GITHUB_FINGERPRINT.data.getLast? ≠ some ' '
    ∧ ¬ ([' ', ' '] <:+: GITHUB_FINGERPRINT.data)
    ∧ GITHUB_FINGERPRINT.data.length = 20 * 2 + 19 := by
  have hdec : decodeFingerprint GITHUB_FINGERPRINT =
      some [0xC6, 0x06, 0x5C, 0xF7, 0x89, 0x3B, 0x4F, 0xD9, 0x5A, 0x81,
            0x33, 0x2F, 0xF9, 0x6F, 0x76, 0x35, 0xBD, 0x6F, 0xB6, 0x5F] := by decide
  refine ⟨by decide, by decide, hdec, ?_, by decide, by decide, by decide, by decide⟩
  intro bytes hb
  rw [hdec] at hb
  cases hb
  decide

/-- C4: against the running version `FIRMWARE_VERSION = "1.0.0"`, `is_newer` is
false for `"1.0.0"`, true for `"1.0.1"` and false for `"1.0"`; for every
well-formed version `v`, `is_newer v v` is false. -/
theorem is_newer_firmware_version (v : String) (h : wellFormedVersion v = true) :
    is_newer "1.0.0" FIRMWARE_VERSION = .ok false
    ∧ is_newer "1.0.1" FIRMWARE_VERSION = .ok true
    ∧ is_newer "1.0" FIRMWARE_VERSION = .ok false
    ∧ is_newer v v = .ok false := by
  refine ⟨by rfl, by rfl, by rfl, ?_⟩
  obtain ⟨cs, hcs⟩ := parseVersion_of_wellFormed v h
  simp [is_newer, hcs, newerComponents_self]

/-- C4 at the well-formed version `2.10.3`. -/
theorem is_newer_firmware_version_witness :
    wellFormedVersion "2.10.3" = true
    ∧ is_newer "1.0.0" FIRMWARE_VERSION = .ok false
    ∧ is_newer "1.0.1" FIRMWARE_VERSION = .ok true
    ∧ is_newer "1.0" FIRMWARE_VERSION = .ok false
    ∧ is_newer "2.10.3" "2.10.3" = .ok false :=
  ⟨by decide, is_newer_firmware_version "2.10.3" (by decide)⟩

/-- A complete session that verifies and flashes a three-byte firmware after one
retry. -/
theorem successful_session_exists :
    (run shippedConfig sumDigest
      [.trigger, .manifest (.ok ⟨"1.0.1", "u", [6], 3⟩) 5, .chunk [1, 2] 1,
        .networkFailure 7, .chunk [1, 2] 1, .chunk [3] 1, .streamEnd 0, .verify,
        .flash true 100]).state = .Rebooting := by
  decide

/-- With the digest comparison switched off, a payload whose digest differs from
the manifest's reaches `UpdateApplier.apply`. -/
theorem unverified_apply_when_disabled :
    (run { shippedConfig with ENABLE_SHA256_VERIFICATION := false } sumDigest
      [.trigger, .manifest (.ok ⟨"1.0.1", "u", [6], 3⟩) 5, .chunk [1, 2, 4] 1,
        .streamEnd 0, .verify]).applied = some [1, 2, 4]
    ∧ sumDigest [1, 2, 4] ≠ [6] := by
  decide

/-- C5: with `ENABLE_SHA256_VERIFICATION` true as configured, in every session
the payload handed to `UpdateApplier.apply` has the digest the manifest
declares; a session that reaches `Rebooting` applied exactly the downloaded
bytes, of the declared size and with the declared digest. -/
theorem digest_verified_before_apply (sha256 : List Nat → List Nat) (evs : List Event) :
    ENABLE_SHA256_VERIFICATION = true
    ∧ (∀ p, (run shippedConfig sha256 evs).applied = some p →
        ∃ m, (run shippedConfig sha256 evs).manifest = some m ∧ sha256 p = m.digest)
    ∧ ((run shippedConfig sha256 evs).state = .Flashing
          ∨ (run shippedConfig sha256 evs).state = .Rebooting →
        ∃ m, (run shippedConfig sha256 evs).manifest = some m
          ∧ (run shippedConfig sha256 evs).applied
              = some (run shippedConfig sha256 evs).downloaded
          ∧ sha256 (run shippedConfig sha256 evs).downloaded = m.digest
          ∧ (run shippedConfig sha256 evs).downloaded.length = m.size) := by
  have h := inv_run shippedConfig sha256 shipped_attempts_pos evs
  refine ⟨rfl, h.verified rfl, fun hs => ?_⟩
  have ha := h.post_apply hs
  obtain ⟨m, hm, hd⟩ := h.verified rfl _ ha
  obtain ⟨m', hm', hl⟩ := h.applied_size _ ha
  rw [hm] at hm'
  cases hm'
  exact ⟨m, hm, ha, hd, hl⟩

/-- C6: in every session and at every point of it, `bytes_received` is at most
`min manifest.size MAX_FIRMWARE_SIZE` (and zero while there is no manifest); a
chunk that would take the count over either bound fails the session with
`SizeExceededError` and leaves the count as it was. -/
theorem bytes_received_bounded (sha256 : List Nat → List Nat) (evs : List Event) :
    MAX_FIRMWARE_SIZE = 1048576
    ∧ (match (run shippedConfig sha256 evs).manifest with
        | some m =>
          (run shippedConfig sha256 evs).bytes_received ≤ min m.size MAX_FIRMWARE_SIZE
        | none => (run shippedConfig sha256 evs).bytes_received = 0)
    ∧ (∀ m bytes dt,
        (run shippedConfig sha256 evs).state = .Downloading →
        (run shippedConfig sha256 evs).manifest = some m →
        min m.size MAX_FIRMWARE_SIZE
          < (run shippedConfig sha256 evs).bytes_received + bytes.length →
        (step shippedConfig sha256 (run shippedConfig sha256 evs) (.chunk bytes dt)).state
            = .Failed
          ∧ (step shippedConfig sha256 (run shippedConfig sha256 evs)
              (.chunk bytes dt)).last_error = some .SizeExceededError
          ∧ (step shippedConfig sha256 (run shippedConfig sha256 evs)
              (.chunk bytes dt)).bytes_received
            = (run shippedConfig sha256 evs).bytes_received) := by
  have h := inv_run shippedConfig sha256 shipped_attempts_pos evs
  refine ⟨rfl, ?_, ?_⟩
  · have hmax : (run shippedConfig sha256 evs).bytes_received ≤ MAX_FIRMWARE_SIZE :=
      h.bytes_le_max
    split
    · next m hm => exact Nat.le_min.mpr ⟨h.bytes_le_size m hm, hmax⟩
    · next hm => exact h.bytes_none hm
  · intro m bytes dt hs hm hlt
    have hc : m.size < (run shippedConfig sha256 evs).bytes_received + bytes.length
        ∨ shippedConfig.MAX_FIRMWARE_SIZE
          < (run shippedConfig sha256 evs).bytes_received + bytes.length := by
      have : shippedConfig.MAX_FIRMWARE_SIZE = MAX_FIRMWARE_SIZE := rfl
      rw [this]
      omega
    simp [step, hs, hm, onChunk, UpdateSession.tick, UpdateSession.fail, hc]

/-- C7: in every session the number of download attempts is at most
`MAX_RETRY_ATTEMPTS` = 3, and the time since the download began is at least
`(attempts - 1) * RETRY_DELAY` with `RETRY_DELAY` = 2000 ms; a download that
fails by exhausting its attempts made exactly 3 and took at least 4000 ms. -/
theorem retry_attempts_bounded (sha256 : List Nat → List Nat) (evs : List Event) :
    MAX_RETRY_ATTEMPTS = 3 ∧ RETRY_DELAY = 2000
    ∧ (run shippedConfig sha256 evs).attempt_count ≤ MAX_RETRY_ATTEMPTS
    ∧ (run shippedConfig sha256 evs).download_started
          + ((run shippedConfig sha256 evs).attempt_count - 1) * RETRY_DELAY
        ≤ (run shippedConfig sha256 evs).elapsed
    ∧ ((run shippedConfig sha256 evs).attempt_count - 1) * RETRY_DELAY
        ≤ (run shippedConfig sha256 evs).elapsed
    ∧ ((run shippedConfig sha256 evs).last_error = some .DownloadFailedError →
        (run shippedConfig sha256 evs).attempt_count = 3
        ∧ (run shippedConfig sha256 evs).download_started + 4000
            ≤ (run shippedConfig sha256 evs).elapsed) := by
  have h := inv_run shippedConfig sha256 shipped_attempts_pos evs
  have hd : (run shippedConfig sha256 evs).download_started
      + ((run shippedConfig sha256 evs).attempt_count - 1) * RETRY_DELAY
        ≤ (run shippedConfig sha256 evs).elapsed := h.delay_le
  refine ⟨rfl, rfl, h.attempts_le, hd, Nat.le_trans (Nat.le_add_left _ _) hd, fun he => ?_⟩
  have ha : (run shippedConfig sha256 evs).attempt_count = 3 := h.exhausted he
  rw [ha] at hd
  exact ⟨ha, by simpa [RETRY_DELAY] using hd⟩

/-- C8 as stated fails: `HTTP_TIMEOUT` is not at most `WATCHDOG_TIMEOUT`. -/
theorem http_timeout_not_within_watchdog : ¬ (HTTP_TIMEOUT ≤ WATCHDOG_TIMEOUT) := by
  decide

/-- C8, amended: `HTTP_TIMEOUT` (15000 ms) is greater than `WATCHDOG_TIMEOUT`
(8000 ms), so a single transport call that blocks for its full timeout without
a heartbeat outlasts the watchdog. -/
theorem http_timeout_exceeds_watchdog :
    WATCHDOG_TIMEOUT < HTTP_TIMEOUT
    ∧ ((WatchdogGuard.arm WATCHDOG_TIMEOUT).advance HTTP_TIMEOUT).expired = true := by
  refine ⟨by decide, by decide⟩

/-- C9: `RETRY_DELAY < WATCHDOG_TIMEOUT`, and the delays of a fully exhausted
retry sequence, `(MAX_RETRY_ATTEMPTS - 1) * RETRY_DELAY`, also stay below
`WATCHDOG_TIMEOUT`; a watchdog armed with that timeout does not expire while
any number of those delays is waited out. -/
theorem retry_delay_within_watchdog :
    RETRY_DELAY < WATCHDOG_TIMEOUT
    ∧ (MAX_RETRY_ATTEMPTS - 1) * RETRY_DELAY < WATCHDOG_TIMEOUT
    ∧ ((WatchdogGuard.arm WATCHDOG_TIMEOUT).advance RETRY_DELAY).expired = false
    ∧ (∀ k : Fin MAX_RETRY_ATTEMPTS,
        ((WatchdogGuard.arm WATCHDOG_TIMEOUT).advance (k.val * RETRY_DELAY)).expired
          = false) := by
  refine ⟨by decide, by decide, by decide, by decide⟩

/-- C10: `MAX_FIRMWARE_SIZE` is 1 MB = 1024 * 1024 = 2^20 bytes,
`UPDATE_CHECK_INTERVAL` is 1 hour = 60 * 60 * 1000 ms, and both fit in an
unsigned 32-bit integer. -/
theorem limits_match_documented_units :
    MAX_FIRMWARE_SIZE = 1024 * 1024
    ∧ MAX_FIRMWARE_SIZE = 2 ^ 20
    ∧ UPDATE_CHECK_INTERVAL = 60 * 60 * 1000
    ∧ MAX_FIRMWARE_SIZE < 2 ^ 32
    ∧ UPDATE_CHECK_INTERVAL < 2 ^ 32 := by
  refine ⟨by decide, by decide, by decide, by decide, by decide⟩

end OTAConfig
